import Mathlib

/-!
Shallow embedding of the prompt-evolution subsystem of the virtual-tryon bot
(src/bot/services/{global_prompts,tryon_orchestrator,quality_eval,
prompt_optimizer,nano_banana}.py), together with proofs about the claims on
that subsystem.

External effects (the generative-model calls, json.loads) enter the model as
explicit outcome arguments of type Except/Option; the SQLAlchemy-backed prompt
store is state-passed as an explicit record.  Python floats are modelled over
exact rationals.
-/

namespace TryonBot

/-! ## JSON values and Python float coercion (quality_eval.py parsing) -/

/-- A parsed JSON value, as produced by json.loads. -/
inductive Json where
  | null : Json
  | bool (b : Bool) : Json
  | num (q : ℚ) : Json
  | str (s : String) : Json
  | arr (elems : List Json) : Json
  | obj (fields : List (String × Json)) : Json

/-- Python str.strip(): drop leading and trailing whitespace.  Implemented on
the character list so it evaluates by kernel reduction. -/
def pyStrip (s : String) : String :=
  ⟨((s.data.dropWhile Char.isWhitespace).reverse.dropWhile Char.isWhitespace).reverse⟩

/-- Python str.lower(), ASCII range (the classifier answers it is applied to
are ASCII category labels). -/
def pyLower (s : String) : String :=
  ⟨s.data.map Char.toLower⟩

/-- Leading-digit run of a character list. -/
def takeDigits (cs : List Char) : List Char × List Char :=
  (cs.takeWhile Char.isDigit, cs.dropWhile Char.isDigit)

/-- Value of a digit run (the run is assumed to be all digits). -/
def digitsVal (cs : List Char) : ℚ :=
  cs.foldl (fun n c => n * 10 + ((c.toNat - 48 : Nat) : ℚ)) 0

/-- Optional sign prefix: returns (isNegative, rest). -/
def splitSign : List Char → Bool × List Char
  | '-' :: rest => (true, rest)
  | '+' :: rest => (false, rest)
  | cs => (false, cs)

/-- 10^e over the rationals for an integer exponent. -/
def pow10 : Int → ℚ
  | .ofNat n => (10 : ℚ) ^ n
  | .negSucc n => 1 / (10 : ℚ) ^ (n + 1)

/-- Mantissa of a Python float literal: digits, optionally with a decimal
point (at least one digit on one side).  Returns the value and the rest. -/
def parseMantissa (cs : List Char) : Option (ℚ × List Char) :=
  let ip := takeDigits cs
  match ip.2 with
  | '.' :: rest2 =>
      let fp := takeDigits rest2
      if ip.1.isEmpty && fp.1.isEmpty then none
      else some (digitsVal ip.1 + digitsVal fp.1 / (10 : ℚ) ^ fp.1.length, fp.2)
  | _ =>
      if ip.1.isEmpty then none else some (digitsVal ip.1, ip.2)

/-- Optional exponent suffix e/E with optional sign and mandatory digits. -/
def parseExpPart (cs : List Char) : Option (Int × List Char) :=
  match cs with
  | 'e' :: rest | 'E' :: rest =>
      let sg := splitSign rest
      let ds := takeDigits sg.2
      if ds.1.isEmpty then none
      else
        let v : Int := ds.1.foldl (fun n c => n * 10 + ((c.toNat - 48 : Nat) : Int)) 0
        some (if sg.1 then -v else v, ds.2)
  | _ => some (0, cs)

/-- Python float(s) on a string: strip whitespace, optional sign, decimal
mantissa, optional exponent; the whole string must be consumed.  Underscore
digit separators and the inf/nan literals are treated as unparsable (they do
not occur in the JSON responses this parser is fed). -/
def parseFloat? (s : String) : Option ℚ :=
  let sg := splitSign (pyStrip s).data
  match parseMantissa sg.2 with
  | none => none
  | some m =>
      match parseExpPart m.2 with
      | none => none
      | some e =>
          if e.2.isEmpty then
            some ((if sg.1 then -m.1 else m.1) * pow10 e.1)
          else none

/-- Python float(x) on a JSON value: numbers pass through, booleans become
0/1, numeric strings are parsed; null, arrays and objects raise (none). -/
def pyFloat : Json → Option ℚ
  | .num q => some q
  | .bool b => some (if b then 1 else 0)
  | .str s => parseFloat? s
  | _ => none

/-- Python dict.get(key, default) on the field list of a parsed JSON object
(json.loads keeps the last occurrence of a duplicated key). -/
def pyGet (fields : List (String × Json)) (key : String) (dflt : Json) : Json :=
  match fields.reverse.find? (fun kv => kv.1 == key) with
  | some kv => kv.2
  | none => dflt

/-- Rendering of a JSON value to a string, used where the Python code stores a
field of unchecked type into a str-annotated slot; approximates str(x). -/
def renderJson : Json → String
  | .null => "None"
  | .bool b => if b then "True" else "False"
  | .num q => toString q
  | .str s => s
  | .arr _ => "<list>"
  | .obj _ => "<dict>"

/-- Python list-of-strings view of a JSON field value (quality_eval stores
data.get("issues", []) unchecked; non-list shapes cannot raise there). -/
def pyStrList : Json → List String
  | .arr xs => xs.map renderJson
  | v => [renderJson v]

/-! ## QualityEvaluation and QualityEvaluator.evaluate (quality_eval.py) -/

/-- quality_eval.QualityEvaluation. -/
structure QualityEvaluation where
  score : ℚ
  clothing_match_score : ℚ
  fit_score : ℚ
  feedback : String
  issues : List String
  suggestions : List String
deriving DecidableEq, Repr

/-- The neutral evaluation built in the except-branch of evaluate
(quality_eval.py lines 107-116); emsg stands for str(e). -/
def fallbackEval (emsg : String) : QualityEvaluation :=
  { score := 5
    clothing_match_score := 5
    fit_score := 5
    feedback := "Ошибка оценки: " ++ emsg
    issues := ["Не удалось оценить"]
    suggestions := ["Попробовать снова"] }

/-- Field extraction from the parsed JSON (quality_eval.py lines 98-105).
none exactly when Python would raise: data is not a dict (.get missing), or a
float() coercion of score/clothing_match_score/fit_score fails.  The string
fields are stored unchecked in Python and cannot raise. -/
def extractEval (j : Json) : Option QualityEvaluation :=
  match j with
  | .obj fields =>
      match pyFloat (pyGet fields "score" (.num 0)),
            pyFloat (pyGet fields "clothing_match_score" (.num 0)),
            pyFloat (pyGet fields "fit_score" (.num 0)) with
      | some sc, some cm, some fs =>
          some { score := sc
                 clothing_match_score := cm
                 fit_score := fs
                 feedback := renderJson (pyGet fields "feedback" (.str ""))
                 issues := pyStrList (pyGet fields "issues" (.arr []))
                 suggestions := pyStrList (pyGet fields "suggestions" (.arr [])) }
      | _, _, _ => none
  | _ => none

/-- QualityEvaluator.evaluate.  The outcome argument stands for the model call
followed by markdown-fence stripping and json.loads: .error e is an exception
raised by the call (or reading the images), .ok none is response text that
json.loads rejects, .ok (some j) is the parsed value. -/
def evaluate (outcome : Except String (Option Json)) : QualityEvaluation :=
  match outcome with
  | .error e => fallbackEval e
  | .ok none => fallbackEval "Expecting value"
  | .ok (some j) =>
      match extractEval j with
      | some ev => ev
      | none => fallbackEval "field extraction failed"

/-- All the ways evaluate ends in its except-branch: the call raised, the text
was not JSON, or the parsed structure was malformed. -/
def evalFailed : Except String (Option Json) → Bool
  | .error _ => true
  | .ok none => true
  | .ok (some j) => (extractEval j).isNone

/-! ## PromptOptimizer.optimize (prompt_optimizer.py) -/

/-- prompt_optimizer.OptimizedPrompt. -/
structure OptimizedPrompt where
  prompt : String
  changes_made : String
  expected_improvements : List String
deriving DecidableEq, Repr

/-- The fixed clause appended by the fallback branch of optimize
(prompt_optimizer.py line 84). -/
def FALLBACK_CLAUSE : String :=
  " ВАЖНО: Одежда должна быть ИДЕНТИЧНА оригиналу - точный цвет, рисунок, текстура!"

/-- PromptOptimizer.optimize.  The outcome argument stands for the
optimization model call: .ok text is response.text, .error e an exception.
On success the stripped response text is returned as the new prompt (with no
check against the previous prompt); on failure the fixed clause is appended
to the previous prompt. -/
def optimize (previous_prompt : String) (evaluation : QualityEvaluation)
    (outcome : Except String String) : OptimizedPrompt :=
  match outcome with
  | .ok text =>
      { prompt := pyStrip text
        changes_made :=
          "Оптимизирован на основе " ++ toString evaluation.issues.length ++ " проблем"
        expected_improvements := evaluation.suggestions }
  | .error _ =>
      { prompt := previous_prompt ++ FALLBACK_CLAUSE
        changes_made := "Добавлен акцент на идентичность (fallback)"
        expected_improvements := ["Лучшее соответствие одежды"] }

/-! ## The prompt store (global_prompts.py, models.GlobalPrompt) -/

/-- global_prompts.BASE_INSTRUCTION. -/
def BASE_INSTRUCTION : String :=
  "Одень эту одежду на этого человека.\n\nКРИТИЧЕСКИ ВАЖНО - ЦВЕТ:\n- ЦВЕТ ОДЕЖДЫ ДОЛЖЕН ОСТАТЬСЯ ТОЧНО ТАКИМ ЖЕ КАК НА ФОТО - НЕ МЕНЯТЬ!\n- Не корректируй цвет под освещение, не делай его светлее/темнее\n- Точно сохрани оттенок, насыщенность и яркость цвета\n\nВАЖНО:\n- Одежда должна выглядеть точно так же как на исходном фото - тот же цвет, текстура, рисунок, детали\n- НЕ МЕНЯТЬ тело человека: рост, вес, пропорции, телосложение должны остаться ТОЧНО такими же\n- Если одежда слишком большая - она должна висеть, выглядеть мешковато\n- Если одежда слишком маленькая - она должна выглядеть тесной, обтягивающей\n- Покажи РЕАЛИСТИЧНУЮ посадку одежды на РЕАЛЬНОЕ тело человека\n- Сохрани позу, лицо и внешность человека"

/-- global_prompts.DEFAULT_PROMPTS, in dict insertion order. -/
def DEFAULT_PROMPTS : List (String × String) :=
  [("default", BASE_INSTRUCTION),
   ("top", BASE_INSTRUCTION ++ "\n- Обрати особое внимание на посадку плеч и длину рукавов"),
   ("bottom", BASE_INSTRUCTION ++ "\n- Обрати особое внимание на посадку на талии и длину штанин/юбки"),
   ("dress", BASE_INSTRUCTION ++ "\n- Обрати особое внимание на всю длину платья и силуэт\n- СОХРАНИ ТОЧНЫЙ ЦВЕТ ПЛАТЬЯ!"),
   ("outerwear", BASE_INSTRUCTION ++ "\n- Покажи как верхняя одежда сидит поверх других вещей"),
   ("swimwear", BASE_INSTRUCTION ++ "\n- Это купальник или плавки - покажи реалистично как они сидят\n- Сохрани естественный вид тела, не изменяй фигуру"),
   ("underwear", BASE_INSTRUCTION ++ "\n- Это нижнее белье - покажи реалистично как оно сидит\n- Сохрани естественный вид тела")]

/-- One row of the global_prompts table (models.GlobalPrompt). -/
structure GlobalPrompt where
  id : Nat
  clothing_type : String
  prompt : String
  version : Nat
  avg_quality_score : ℚ
  avg_clothing_match : ℚ
  total_uses : Nat
  successful_uses : Nat
  is_active : Bool
  parent_prompt_id : Option Nat
  improvement_reason : Option String
deriving DecidableEq, Repr

/-- The global_prompts table plus the autoincrement id counter. -/
structure Store where
  prompts : List GlobalPrompt
  nextId : Nat
deriving DecidableEq, Repr

/-- The empty table. -/
def emptyStore : Store := { prompts := [], nextId := 1 }

/-- The WHERE clause shared by record_usage and save_improved_prompt:
prompt == text AND is_active == True.  Note no clothing_type condition. -/
def activeWithText (text : String) (p : GlobalPrompt) : Bool :=
  p.prompt == text && p.is_active

/-- The metric update applied to the matched prompt inside record_usage
(global_prompts.py lines 102-115); n is total_uses after the increment. -/
def bumpMetrics (evaluation : QualityEvaluation) (p : GlobalPrompt) : GlobalPrompt :=
  let n : ℚ := ((p.total_uses + 1 : Nat) : ℚ)
  { p with
    total_uses := p.total_uses + 1
    avg_quality_score := ((p.avg_quality_score * (n - 1)) + evaluation.score) / n
    avg_clothing_match := ((p.avg_clothing_match * (n - 1)) + evaluation.clothing_match_score) / n
    successful_uses :=
      p.successful_uses + (if (7 : ℚ) ≤ evaluation.score then 1 else 0) }

/-- GlobalPromptManager.record_usage.  clothing_type is accepted but never
consulted; the lookup is by prompt text and is_active only.  With no matching
row scalar_one_or_none yields None and nothing is updated; with several
matching rows it raises MultipleResultsFound, which get_session turns into a
rollback and the outer except swallows — a no-op either way. -/
def record_usage (clothing_type : String) (prompt_used : String)
    (evaluation : QualityEvaluation) (s : Store) : Store :=
  match s.prompts.filter (activeWithText prompt_used) with
  | [_] =>
      { s with
        prompts := s.prompts.map (fun p =>
          if activeWithText prompt_used p then bumpMetrics evaluation p else p) }
  | _ => s

/-- The row built by save_improved_prompt (global_prompts.py lines 152-163). -/
def mkImproved (ct text : String) (version : Nat) (parent : Option Nat)
    (reason : String) (initial_score : ℚ) (idv : Nat) : GlobalPrompt :=
  { id := idv
    clothing_type := ct
    prompt := text
    version := version
    avg_quality_score := initial_score
    avg_clothing_match := initial_score
    total_uses := 1
    successful_uses := if (7 : ℚ) ≤ initial_score then 1 else 0
    is_active := true
    parent_prompt_id := parent
    improvement_reason := some reason }

/-- GlobalPromptManager.save_improved_prompt.  The parent lookup matches on
prompt text and is_active only (not on clothing_type); with no parent a fresh
version-1 active row is inserted anyway; with several matches the raised
MultipleResultsFound rolls the transaction back and None is returned. -/
def save_improved_prompt (clothing_type new_prompt old_prompt improvement_reason : String)
    (initial_score : ℚ) (s : Store) : Store × Option Nat :=
  match s.prompts.filter (activeWithText old_prompt) with
  | [] =>
      ({ prompts :=
           s.prompts ++
             [mkImproved clothing_type new_prompt 1 none improvement_reason initial_score s.nextId]
         nextId := s.nextId + 1 },
       some s.nextId)
  | [parent] =>
      ({ prompts :=
           (s.prompts.map (fun p =>
             if activeWithText old_prompt p then { p with is_active := false } else p)) ++
             [mkImproved clothing_type new_prompt (parent.version + 1) (some parent.id)
               improvement_reason initial_score s.nextId]
         nextId := s.nextId + 1 },
       some s.nextId)
  | _ => (s, none)

/-- A default row inserted by initialize_defaults: only clothing_type, prompt,
version and is_active are given; the rest take the column defaults of
models.GlobalPrompt (metrics 0, no parent, no reason). -/
def seedDefault (ct text : String) (idv : Nat) : GlobalPrompt :=
  { id := idv
    clothing_type := ct
    prompt := text
    version := 1
    avg_quality_score := 0
    avg_clothing_match := 0
    total_uses := 0
    successful_uses := 0
    is_active := true
    parent_prompt_id := none
    improvement_reason := none }

/-- One iteration of the initialize_defaults loop: insert the default for the
category unless some row (active or not) with that clothing_type exists. -/
def initStep (st : Store) (kv : String × String) : Store :=
  if st.prompts.any (fun p => p.clothing_type == kv.1) then st
  else
    { prompts := st.prompts ++ [seedDefault kv.1 kv.2 st.nextId]
      nextId := st.nextId + 1 }

/-- GlobalPromptManager.initialize_defaults. -/
def initialize_defaults (s : Store) : Store :=
  DEFAULT_PROMPTS.foldl initStep s

/-- ORDER BY version DESC LIMIT 1 over a filtered row list: the highest
version wins; on a version tie the database order is unspecified, here the
earlier row wins. -/
def bestByVersion (l : List GlobalPrompt) : Option GlobalPrompt :=
  l.foldl (fun acc p =>
    match acc with
    | none => some p
    | some q => if q.version < p.version then some p else some q) none

/-- The hard-coded fallback DEFAULT_PROMPTS.get(ct, DEFAULT_PROMPTS["default"])
(the "default" entry is BASE_INSTRUCTION). -/
def lookupDefault (ct : String) : String :=
  match DEFAULT_PROMPTS.find? (fun kv => kv.1 == ct) with
  | some kv => kv.2
  | none => BASE_INSTRUCTION

/-- GlobalPromptManager.get_best_prompt: the active prompt of the category,
else the active "default" prompt, else the hard-coded default. -/
def get_best_prompt (ct : String) (s : Store) : String :=
  match bestByVersion (s.prompts.filter (fun p => p.clothing_type == ct && p.is_active)) with
  | some p => p.prompt
  | none =>
      match bestByVersion
          (s.prompts.filter (fun p => p.clothing_type == "default" && p.is_active)) with
      | some p => p.prompt
      | none => lookupDefault ct

/-- Number of active rows of a category — the quantity the one-active-per-
category invariant speaks about. -/
def countActive (ct : String) (s : Store) : Nat :=
  (s.prompts.filter (fun p => p.is_active && p.clothing_type == ct)).length

/-- The invariant claimed of the store: at most one active prompt per
category. -/
def AtMostOneActive (s : Store) : Prop :=
  ∀ ct, countActive ct s ≤ 1

/-! ## NanoBananaService (nano_banana.py): classifier and generator -/

/-- Python substring test helper: does the needle lead the haystack? -/
def charsLead : List Char → List Char → Bool
  | [], _ => true
  | _ :: _, [] => false
  | a :: as, b :: bs => a == b && charsLead as bs

/-- Python substring containment on character lists. -/
def charsSub (needle hay : List Char) : Bool :=
  match hay with
  | [] => needle.isEmpty
  | _ :: bs => charsLead needle hay || charsSub needle bs

/-- Python (needle in hay) on strings. -/
def strContains (hay needle : String) : Bool :=
  charsSub needle.toList hay.toList

/-- The valid_types list of detect_clothing_type (nano_banana.py line 228). -/
def VALID_TYPES : List String :=
  ["top", "bottom", "dress", "outerwear", "swimwear", "underwear", "accessory", "shoes"]

/-- NanoBananaService.detect_clothing_type.  The outcome argument stands for
the text-model call: .ok t is response.text, .error e an exception (including
a failed image read).  Unrecognized answers fall back to the first valid type
occurring as a substring, else "top"; exceptions fall back to "top". -/
def detect_clothing_type (outcome : Except String String) : String :=
  match outcome with
  | .error _ => "top"
  | .ok t =>
      let result := pyLower (pyStrip t)
      if VALID_TYPES.contains result then result
      else
        match VALID_TYPES.find? (fun valid => strContains result valid) with
        | some valid => valid
        | none => "top"

/-- One part of a generation response (google.genai content part). -/
structure GenPart where
  txt : Option String
  inline_data : Option (List Nat)
  thought : Bool
deriving DecidableEq, Repr

/-- One candidate of a generation response; finish_reason is modelled by its
str() rendering (None when absent). -/
structure GenCandidate where
  finish_reason : Option String
deriving DecidableEq, Repr

/-- A generation response; prompt_feedback is modelled by its str() rendering
(None when absent or falsy). -/
structure GenResponse where
  parts : List GenPart
  candidates : List GenCandidate
  prompt_feedback : Option String
deriving DecidableEq, Repr

/-- The blocked-generation message of generate_with_prompt
(nano_banana.py line 191). -/
def BLOCKED_MSG : String :=
  "⚠️ К сожалению, модель отказала в генерации этого типа одежды. Попробуйте другую одежду (футболки, платья, верхняя одежда работают лучше)."

/-- Does a candidate trigger the blocked branch of generate_with_prompt:
a present finish_reason whose rendering contains IMAGE_OTHER or SAFETY. -/
def blockedCandidate (c : GenCandidate) : Bool :=
  match c.finish_reason with
  | some fr => strContains fr "IMAGE_OTHER" || strContains fr "SAFETY"
  | none => false

/-- NanoBananaService.generate_with_prompt.  The outcome argument stands for
the image-model call: .error e an exception, .ok none a None response,
.ok (some r) a response object.  Returns (image bytes or None, error text or
None), mirroring the source's early returns.  The function performs no
retry. -/
def generate_with_prompt (outcome : Except String (Option GenResponse)) :
    Option (List Nat) × Option String :=
  match outcome with
  | .error e => (none, some e)
  | .ok none => (none, some "Модель вернула пустой ответ")
  | .ok (some r) =>
      if r.parts.isEmpty then
        match r.candidates.find? blockedCandidate with
        | some _ => (none, some BLOCKED_MSG)
        | none =>
            match r.prompt_feedback with
            | some pf => (none, some ("Заблокировано: " ++ pf))
            | none =>
                (none, some "Модель не смогла сгенерировать изображение. Попробуйте другое фото.")
      else
        match r.parts.find? (fun p => p.inline_data.isSome && !p.thought) with
        | some p => (p.inline_data, none)
        | none =>
            match r.parts.find? (fun p => p.inline_data.isSome) with
            | some p => (p.inline_data, none)
            | none => (none, some "No image generated")

/-! ## TryonOrchestrator.process_tryon (tryon_orchestrator.py) -/

/-- tryon_orchestrator.TryonResult. -/
structure TryonResult where
  success : Bool
  image_path : Option String
  final_score : ℚ
  clothing_match_score : ℚ
  iterations_used : Nat
  final_prompt : String
  error : Option String
deriving DecidableEq, Repr

/-- The calls process_tryon makes to its collaborators, in order; the event
vocabulary covers the evaluator / optimizer / store-write calls of the
documented loop so that their absence is statable. -/
inductive CallEv where
  | detectEv
  | getBestEv (ct : String)
  | genEv
  | evalEv
  | optimizeEv
  | recordUsageEv (ct text : String)
  | savePromptEv (ct : String)
  | updateTryonEv (idv : Nat)
deriving DecidableEq, Repr

/-- Is the event a Prompt Store usage-recording call? -/
def isRecordUsageEv : CallEv → Bool
  | .recordUsageEv _ _ => true
  | _ => false

/-- Is the event a Prompt Store promotion call? -/
def isSavePromptEv : CallEv → Bool
  | .savePromptEv _ => true
  | _ => false

/-- The external-call outcomes one process_tryon run can observe: the
classifier call and the (single) generation call. -/
structure OrchEnv where
  detectOut : Except String String
  genOut : Except String (Option GenResponse)

/-- Python truthiness of the error string slot. -/
def errTruthy : Option String → Bool
  | none => false
  | some e => !(e == "")

/-- Python truthiness of the image-bytes slot (empty bytes are falsy). -/
def imgTruthy : Option (List Nat) → Bool
  | none => false
  | some bs => !bs.isEmpty

/-- TryonOrchestrator.process_tryon (lines 54-132): detect the clothing type,
fetch the best prompt, generate ONCE; on a truthy error or missing/empty
image return a failed TryonResult, else write the file, update the Tryon row
and return success with a hard-coded score of 10.0 and iterations_used 1.
The store is returned unchanged (process_tryon never writes the prompt
store); the trace lists the collaborator calls made.  Status-callback
messages and the file write are pure UI / filesystem effects outside the
model; the Tryon-table update appears as a trace event. -/
def process_tryon (env : OrchEnv) (photosDir : String) (tryonId : Nat) (s : Store) :
    TryonResult × Store × List CallEv :=
  let clothing_type := detect_clothing_type env.detectOut
  let current_prompt := get_best_prompt clothing_type s
  let gen := generate_with_prompt env.genOut
  if errTruthy gen.2 || !imgTruthy gen.1 then
    ({ success := false
       image_path := none
       final_score := 0
       clothing_match_score := 0
       iterations_used := 1
       final_prompt := current_prompt
       error := some (match gen.2 with
         | some e => if e == "" then "Failed to generate image" else e
         | none => "Failed to generate image") },
     s,
     [.detectEv, .getBestEv clothing_type, .genEv])
  else
    let final_path := photosDir ++ "/result_" ++ toString tryonId ++ ".png"
    ({ success := true
       image_path := some final_path
       final_score := 10
       clothing_match_score := 10
       iterations_used := 1
       final_prompt := current_prompt
       error := none },
     s,
     [.detectEv, .getBestEv clothing_type, .genEv, .updateTryonEv tryonId])

/-! ## Prompt-store operation sequences -/

/-- One call against the prompt store manager, as in the claims about
sequences of store operations. -/
inductive PSOp where
  | initDefaults : PSOp
  | record (clothing_type prompt_used : String) (evaluation : QualityEvaluation) : PSOp
  | save (clothing_type new_prompt old_prompt improvement_reason : String)
      (initial_score : ℚ) : PSOp

/-- Apply one store operation. -/
def applyPSOp (s : Store) : PSOp → Store
  | .initDefaults => initialize_defaults s
  | .record ct text ev => record_usage ct text ev s
  | .save ct np op r sc => (save_improved_prompt ct np op r sc s).1

/-- Apply a sequence of store operations. -/
def applyPSOps (s : Store) (ops : List PSOp) : Store :=
  ops.foldl applyPSOp s

/-- Well-formed use of a store operation: save_improved_prompt is handed an
old_prompt that matches exactly one active row, and that row belongs to the
category being saved.  initialize_defaults and record_usage are always
well-formed. -/
def WfOp (s : Store) : PSOp → Prop
  | .save ct _ old_prompt _ _ =>
      ∃ p, s.prompts.filter (activeWithText old_prompt) = [p] ∧ p.clothing_type = ct
  | _ => True

/-- Every operation of the sequence is well-formed at the state it runs in. -/
def WfSeq : Store → List PSOp → Prop
  | _, [] => True
  | s, op :: ops => WfOp s op ∧ WfSeq (applyPSOp s op) ops

/-- An evaluation carrying one score on every axis, used to feed
record_usage with a given score. -/
def scoreEval (q : ℚ) : QualityEvaluation :=
  { score := q
    clothing_match_score := q
    fit_score := q
    feedback := ""
    issues := []
    suggestions := [] }

/-- N sequential record_usage calls with the given scores. -/
def applyScores (ct text : String) (scores : List ℚ) (s : Store) : Store :=
  scores.foldl (fun st q => record_usage ct text (scoreEval q) st) s

/-- Is the event the generation call? -/
def isGenEv : CallEv → Bool
  | .genEv => true
  | _ => false

/-! ## Concrete fixtures for witnesses and counterexamples -/

/-- A fresh active prompt row with short text, category "top". -/
def pW4 : GlobalPrompt :=
  { id := 1
    clothing_type := "top"
    prompt := "A"
    version := 1
    avg_quality_score := 0
    avg_clothing_match := 0
    total_uses := 0
    successful_uses := 0
    is_active := true
    parent_prompt_id := none
    improvement_reason := none }

/-- A store holding just pW4. -/
def sW4 : Store := { prompts := [pW4], nextId := 2 }

/-- A store whose single active row with text "A" is in category "dress". -/
def sCross : Store :=
  { prompts := [{ pW4 with clothing_type := "dress" }], nextId := 2 }

/-- A well-formed operation sequence on sW4: promote a revision of the
single active "top" prompt, then re-run the default seeding. -/
def opsW1 : List PSOp :=
  [.save "top" "B" "A" "improved" 9, .initDefaults]

/-- Environment of a session whose single generation succeeds. -/
def envC2 : OrchEnv :=
  { detectOut := .ok "dress"
    genOut := .ok (some
      { parts := [{ txt := none, inline_data := some [7, 7, 7], thought := false }]
        candidates := []
        prompt_feedback := none }) }

/-- A generation response blocked by safety policy: no parts, a candidate
finishing with SAFETY. -/
def rBlocked : GenResponse :=
  { parts := []
    candidates := [{ finish_reason := some "FinishReason.SAFETY" }]
    prompt_feedback := none }

/-- Environment of a session whose first (and only) generation attempt is
blocked. -/
def envC9 : OrchEnv :=
  { detectOut := .ok "dress"
    genOut := .ok (some rBlocked) }

/-! ## List helper lemmas -/

theorem filter_map_cond {α : Type} (m : α → Bool) (f : α → α)
    (h : ∀ x, m x = true → m (f x) = true) (l : List α) :
    (l.map (fun x => if m x then f x else x)).filter m = (l.filter m).map f := by
  induction l with
  | nil => rfl
  | cons a t ih =>
      by_cases hma : m a = true
      · rw [List.map_cons, if_pos hma, List.filter_cons_of_pos (h a hma),
          List.filter_cons_of_pos hma, List.map_cons, ih]
      · rw [List.map_cons, if_neg hma, List.filter_cons_of_neg hma,
          List.filter_cons_of_neg hma, ih]

theorem length_filter_map_pres {α : Type} (q : α → Bool) (g : α → α)
    (h : ∀ x, q (g x) = q x) (l : List α) :
    ((l.map g).filter q).length = (l.filter q).length := by
  induction l with
  | nil => rfl
  | cons a t ih =>
      by_cases hqa : q a = true
      · rw [List.map_cons, List.filter_cons_of_pos (by rw [h a]; exact hqa),
          List.filter_cons_of_pos hqa, List.length_cons, List.length_cons, ih]
      · rw [List.map_cons, List.filter_cons_of_neg (by rw [h a]; exact hqa),
          List.filter_cons_of_neg hqa, ih]

theorem length_filter_update {α : Type} (m q : α → Bool) (f : α → α) (l : List α) (p : α)
    (hl : l.filter m = [p]) :
    ((l.map (fun x => if m x then f x else x)).filter q).length
        + (if q p = true then 1 else 0)
      = (l.filter q).length + (if q (f p) = true then 1 else 0) := by
  induction l with
  | nil => simp at hl
  | cons a t ih =>
      by_cases hma : m a = true
      · rw [List.filter_cons_of_pos hma] at hl
        simp only [List.cons.injEq] at hl
        obtain ⟨rfl, htail⟩ := hl
        have hnone : ∀ x ∈ t, ¬ (m x = true) := List.filter_eq_nil_iff.mp htail
        have hmapt : (t.map fun x => if m x then f x else x) = t := by
          calc (t.map fun x => if m x then f x else x)
              = t.map id := List.map_congr_left (fun x hx => if_neg (hnone x hx))
            _ = t := List.map_id t
        rw [List.map_cons, if_pos hma, hmapt]
        by_cases hqp : q a = true <;> by_cases hqf : q (f a) = true <;>
          simp [List.filter_cons, hqp, hqf]
      · rw [List.filter_cons_of_neg hma] at hl
        rw [List.map_cons, if_neg hma]
        by_cases hqa : q a = true
        · rw [List.filter_cons_of_pos hqa, List.filter_cons_of_pos hqa,
            List.length_cons, List.length_cons]
          have := ih hl
          omega
        · rw [List.filter_cons_of_neg hqa, List.filter_cons_of_neg hqa]
          exact ih hl

/-! ## Store-level invariant lemmas -/

theorem countActive_record_usage (ct text : String) (ev : QualityEvaluation)
    (s : Store) (c : String) :
    countActive c (record_usage ct text ev s) = countActive c s := by
  unfold record_usage
  split
  · unfold countActive
    exact length_filter_map_pres _ _
      (fun x => by
        by_cases hx : activeWithText text x = true
        · rw [if_pos hx]; rfl
        · rw [if_neg hx]) s.prompts
  · rfl

theorem atMostOne_initStep (st : Store) (kv : String × String)
    (h : AtMostOneActive st) : AtMostOneActive (initStep st kv) := by
  unfold initStep
  by_cases hany : st.prompts.any (fun p => p.clothing_type == kv.1) = true
  · rw [if_pos hany]; exact h
  · rw [if_neg hany]
    intro c
    unfold countActive
    simp only [List.filter_append, List.length_append]
    by_cases hc : (kv.1 == c) = true
    · have hzero : (st.prompts.filter (fun p => p.is_active && p.clothing_type == c)).length = 0 := by
        have hfil : st.prompts.filter (fun p => p.is_active && p.clothing_type == c) = [] := by
          refine List.filter_eq_nil_iff.mpr (fun p hp hq => ?_)
          have h2 := (Bool.and_eq_true _ _).mp hq
          refine hany (List.any_eq_true.mpr ⟨p, hp, ?_⟩)
          have hc' : kv.1 = c := eq_of_beq hc
          rw [hc']
          exact h2.2
        rw [hfil]; rfl
      rw [hzero]
      simp [List.filter_cons, seedDefault, hc]
    · have hle := h c
      unfold countActive at hle
      simp only [List.filter_cons, List.filter_nil, seedDefault]
      simp [hc]
      exact hle

theorem atMostOne_foldl_initStep (l : List (String × String)) :
    ∀ st, AtMostOneActive st → AtMostOneActive (l.foldl initStep st) := by
  induction l with
  | nil => exact fun st h => h
  | cons kv t ih => exact fun st h => ih _ (atMostOne_initStep st kv h)

theorem atMostOne_initialize (s : Store) (h : AtMostOneActive s) :
    AtMostOneActive (initialize_defaults s) :=
  atMostOne_foldl_initStep DEFAULT_PROMPTS s h

theorem countActive_save_wf (ct np oldP reason : String) (sc : ℚ) (s : Store)
    (p : GlobalPrompt) (hf : s.prompts.filter (activeWithText oldP) = [p])
    (hct : p.clothing_type = ct) (c : String) :
    countActive c ((save_improved_prompt ct np oldP reason sc s).1) = countActive c s := by
  have hpm : activeWithText oldP p = true := by
    have hmem : p ∈ s.prompts.filter (activeWithText oldP) := by
      rw [hf]; exact List.mem_singleton.mpr rfl
    exact (List.mem_filter.mp hmem).2
  have hpa : p.is_active = true := ((Bool.and_eq_true _ _).mp hpm).2
  unfold save_improved_prompt
  rw [hf]
  unfold countActive
  simp only [List.filter_append, List.length_append]
  have key := length_filter_update (activeWithText oldP)
    (fun x => x.is_active && x.clothing_type == c)
    (fun x => { x with is_active := false }) s.prompts p hf
  simp only at key
  cases hcc : (p.clothing_type == c) with
  | true =>
      have h1 : (if (p.is_active && p.clothing_type == c) = true then 1 else 0) = 1 := by
        simp [hpa, hcc]
      have h2 : (if (false && p.clothing_type == c) = true then 1 else 0) = 0 := by simp
      rw [h1, h2] at key
      have h3 : (List.filter (fun q => q.is_active && q.clothing_type == c)
          [mkImproved ct np (p.version + 1) (some p.id) reason sc s.nextId]).length = 1 := by
        simp [mkImproved, List.filter_cons, ← hct, hcc]
      rw [h3]
      omega
  | false =>
      have h1 : (if (p.is_active && p.clothing_type == c) = true then 1 else 0) = 0 := by
        simp [hcc]
      have h2 : (if (false && p.clothing_type == c) = true then 1 else 0) = 0 := by simp
      rw [h1, h2] at key
      have h3 : (List.filter (fun q => q.is_active && q.clothing_type == c)
          [mkImproved ct np (p.version + 1) (some p.id) reason sc s.nextId]).length = 0 := by
        simp [mkImproved, List.filter_cons, ← hct, hcc]
      rw [h3]
      omega

theorem atMostOne_wfseq (ops : List PSOp) :
    ∀ s : Store, AtMostOneActive s → WfSeq s ops → AtMostOneActive (applyPSOps s ops) := by
  induction ops with
  | nil => exact fun s h _ => h
  | cons op t ih =>
      intro s h hw
      obtain ⟨h1, h2⟩ := hw
      refine ih (applyPSOp s op) ?_ h2
      cases op with
      | initDefaults => exact atMostOne_initialize s h
      | record ct text ev =>
          intro c
          show countActive c (record_usage ct text ev s) ≤ 1
          rw [countActive_record_usage]
          exact h c
      | save ct np oldP r sc =>
          obtain ⟨p, hfp, hctp⟩ := h1
          intro c
          show countActive c ((save_improved_prompt ct np oldP r sc s).1) ≤ 1
          rw [countActive_save_wf ct np oldP r sc s p hfp hctp c]
          exact h c

/-! ## initialize_defaults idempotence lemmas -/

theorem initStep_any_mono (c : String) (st : Store) (kv : String × String)
    (h : st.prompts.any (fun p => p.clothing_type == c) = true) :
    (initStep st kv).prompts.any (fun p => p.clothing_type == c) = true := by
  unfold initStep
  split
  · exact h
  · simp only [List.any_append, h, Bool.true_or]

theorem foldl_initStep_any_mono (c : String) (l : List (String × String)) :
    ∀ st, st.prompts.any (fun p => p.clothing_type == c) = true →
      (l.foldl initStep st).prompts.any (fun p => p.clothing_type == c) = true := by
  induction l with
  | nil => exact fun st h => h
  | cons kv t ih => exact fun st h => ih _ (initStep_any_mono c st kv h)

theorem initStep_any_self (st : Store) (kv : String × String) :
    (initStep st kv).prompts.any (fun p => p.clothing_type == kv.1) = true := by
  unfold initStep
  split
  · assumption
  · simp [List.any_append, seedDefault]

theorem foldl_initStep_present (l : List (String × String)) (kv : String × String)
    (hkv : kv ∈ l) :
    ∀ st, ((l.foldl initStep st).prompts.any (fun p => p.clothing_type == kv.1)) = true := by
  induction l with
  | nil => cases hkv
  | cons a t ih =>
      intro st
      rcases List.mem_cons.mp hkv with h | h
      · subst h
        exact foldl_initStep_any_mono kv.1 t _ (initStep_any_self st kv)
      · exact ih h (initStep st a)

theorem foldl_initStep_noop (l : List (String × String)) :
    ∀ st, (∀ kv ∈ l, st.prompts.any (fun p => p.clothing_type == kv.1) = true) →
      l.foldl initStep st = st := by
  induction l with
  | nil => exact fun st _ => rfl
  | cons a t ih =>
      intro st h
      have ha : initStep st a = st := by
        unfold initStep
        rw [if_pos (h a (List.mem_cons_self a t))]
      rw [List.foldl_cons, ha]
      exact ih st (fun kv hkv => h kv (List.mem_cons_of_mem a hkv))

/-! ## record_usage running-mean lemmas -/

theorem record_usage_unique_match (ct text : String) (ev : QualityEvaluation) (s : Store)
    (p : GlobalPrompt) (h : s.prompts.filter (activeWithText text) = [p]) :
    (record_usage ct text ev s).prompts.filter (activeWithText text) = [bumpMetrics ev p] := by
  unfold record_usage
  rw [h]
  show (s.prompts.map fun x => if activeWithText text x then bumpMetrics ev x else x).filter
      (activeWithText text) = [bumpMetrics ev p]
  rw [filter_map_cond (activeWithText text) (bumpMetrics ev) (fun x hx => hx) s.prompts, h]
  rfl

theorem applyScores_stats (ct text : String) (scores : List ℚ) :
    ∀ (s : Store) (p : GlobalPrompt),
      s.prompts.filter (activeWithText text) = [p] →
      ∃ p2, (applyScores ct text scores s).prompts.filter (activeWithText text) = [p2] ∧
        p2.total_uses = p.total_uses + scores.length ∧
        p2.avg_quality_score * ((p.total_uses : ℚ) + scores.length) =
          p.avg_quality_score * p.total_uses + scores.sum ∧
        p2.successful_uses = p.successful_uses +
          (scores.filter (fun x => decide ((7 : ℚ) ≤ x))).length := by
  induction scores with
  | nil =>
      intro s p h
      exact ⟨p, h, by simp, by simp, by simp⟩
  | cons q qs ih =>
      intro s p h
      have h1 := record_usage_unique_match ct text (scoreEval q) s p h
      obtain ⟨p2, hfilter, htot, havg, hsucc⟩ :=
        ih (record_usage ct text (scoreEval q) s) (bumpMetrics (scoreEval q) p) h1
      have hb_tot : (bumpMetrics (scoreEval q) p).total_uses = p.total_uses + 1 := rfl
      have hb_avg : (bumpMetrics (scoreEval q) p).avg_quality_score
          = ((p.avg_quality_score * (((p.total_uses + 1 : Nat) : ℚ) - 1)) + q)
            / ((p.total_uses + 1 : Nat) : ℚ) := rfl
      have hb_succ : (bumpMetrics (scoreEval q) p).successful_uses
          = p.successful_uses + (if (7 : ℚ) ≤ q then 1 else 0) := rfl
      refine ⟨p2, hfilter, ?_, ?_, ?_⟩
      · rw [htot, hb_tot, List.length_cons]
        omega
      · rw [hb_tot, hb_avg] at havg
        have hn : ((p.total_uses + 1 : Nat) : ℚ) ≠ 0 := by
          exact_mod_cast Nat.succ_ne_zero p.total_uses
        rw [div_mul_cancel₀ _ hn] at havg
        rw [List.sum_cons, List.length_cons]
        push_cast at havg ⊢
        linear_combination havg
      · rw [hsucc, hb_succ, List.filter_cons]
        by_cases h7 : (7 : ℚ) ≤ q
        · simp [h7]
          omega
        · simp [h7]

/-! ## Claim theorems -/

/-- C1 counterexample: the claim as stated is false.  Starting from the
seeded store, one save_improved_prompt call whose old_prompt matches no
active row leaves category "top" with two simultaneously active prompts
(the seeded one and the freshly inserted version-1 row). -/
theorem save_improved_prompt_two_active_cex :
    ¬ AtMostOneActive
      ((save_improved_prompt "top" "B" "ZZZ" "r" 9 (initialize_defaults emptyStore)).1) :=
  fun h => absurd (h "top") (by decide)

/-- C1 (amended): over any sequence of initialize_defaults, record_usage and
save_improved_prompt operations in which every save_improved_prompt call is
handed an old_prompt matching exactly one active row of the very category
being saved, the at-most-one-active-prompt-per-category invariant is
preserved; without that proviso save_improved_prompt can leave a category
with two active prompts. -/
theorem prompt_store_single_active_wf (s : Store) (ops : List PSOp)
    (hInv : AtMostOneActive s) (hWf : WfSeq s ops) :
    AtMostOneActive (applyPSOps s ops) :=
  atMostOne_wfseq ops s hInv hWf

/-- C1 witness: a concrete well-formed run (a promotion of the single active
"top" prompt followed by a default re-seed) keeps at most one active prompt
per category. -/
theorem prompt_store_single_active_wf_witness :
    AtMostOneActive sW4 ∧ WfSeq sW4 opsW1 ∧ AtMostOneActive (applyPSOps sW4 opsW1) := by
  have h1 : AtMostOneActive sW4 := by
    intro c
    unfold countActive sW4
    simp only [List.filter_cons, List.filter_nil]
    split <;> simp
  have h2 : WfSeq sW4 opsW1 := ⟨⟨pW4, by decide, rfl⟩, trivial, trivial⟩
  exact ⟨h1, h2, prompt_store_single_active_wf sW4 opsW1 h1 h2⟩

/-- C8: initialize_defaults is idempotent — running it twice from any store
equals running it once — and from the empty store it seeds exactly one
version-1 active root prompt per default category. -/
theorem initialize_defaults_idempotent :
    (∀ s : Store, initialize_defaults (initialize_defaults s) = initialize_defaults s) ∧
    ((initialize_defaults emptyStore).prompts.map
        (fun p => (p.clothing_type, p.version, p.is_active, p.parent_prompt_id)) =
      [("default", 1, true, none), ("top", 1, true, none), ("bottom", 1, true, none),
       ("dress", 1, true, none), ("outerwear", 1, true, none), ("swimwear", 1, true, none),
       ("underwear", 1, true, none)]) := by
  constructor
  · intro s
    exact foldl_initStep_noop _ _ (fun kv hkv => foldl_initStep_present _ kv hkv s)
  · decide

/-- C4: starting from a fresh prompt (total_uses = 0, avg_quality_score = 0,
successful_uses = 0) that is the unique active row with the given text,
N sequential record_usage calls with scores s_1..s_N leave avg_quality_score
at the exact arithmetic mean of the scores, total_uses at N, and
successful_uses at the number of scores at or above the acceptance
threshold 7. -/
theorem record_usage_running_mean (ct text : String) (scores : List ℚ) (s : Store)
    (p : GlobalPrompt) (hmatch : s.prompts.filter (activeWithText text) = [p])
    (h0 : p.total_uses = 0) (ha : p.avg_quality_score = 0) (hsu : p.successful_uses = 0)
    (hne : scores ≠ []) :
    ∃ p2, (applyScores ct text scores s).prompts.filter (activeWithText text) = [p2] ∧
      p2.total_uses = scores.length ∧
      p2.avg_quality_score = scores.sum / (scores.length : ℚ) ∧
      p2.successful_uses = (scores.filter (fun x => decide ((7 : ℚ) ≤ x))).length := by
  obtain ⟨p2, hf, ht, hv, hs⟩ := applyScores_stats ct text scores s p hmatch
  refine ⟨p2, hf, by rw [ht, h0]; simp, ?_, by rw [hs, hsu]; simp⟩
  rw [h0, ha] at hv
  have hlen : ((scores.length : ℚ)) ≠ 0 := by
    have hne' : scores.length ≠ 0 := fun hc => hne (List.length_eq_zero.mp hc)
    exact_mod_cast hne'
  rw [eq_div_iff hlen]
  push_cast at hv
  linear_combination hv

/-- C4 witness: scores [8, 5] against the fresh active prompt of sW4 yield
mean 13/2, two total uses and one successful use. -/
theorem record_usage_running_mean_witness :
    (sW4.prompts.filter (activeWithText "A") = [pW4]) ∧
      pW4.total_uses = 0 ∧ pW4.avg_quality_score = 0 ∧ pW4.successful_uses = 0 ∧
      ([(8 : ℚ), 5] ≠ []) ∧
      (∃ p2, (applyScores "top" "A" [(8 : ℚ), 5] sW4).prompts.filter (activeWithText "A") = [p2] ∧
        p2.total_uses = ([(8 : ℚ), 5]).length ∧
        p2.avg_quality_score = ([(8 : ℚ), 5]).sum / (([(8 : ℚ), 5]).length : ℚ) ∧
        p2.successful_uses = (([(8 : ℚ), 5]).filter (fun x => decide ((7 : ℚ) ≤ x))).length) :=
  ⟨by decide, rfl, rfl, rfl, by decide,
    record_usage_running_mean "top" "A" [(8 : ℚ), 5] sW4 pW4 (by decide) rfl rfl rfl (by decide)⟩

/-- C10: record_usage is fully independent of its clothing_type argument —
for every store, text and evaluation the resulting store is identical under
any two clothing_type arguments — and concretely a text matching the active
prompt of a different category ("dress") still gets its metrics updated when
usage is recorded under category "top". -/
theorem record_usage_independent_of_clothing_type :
    (∀ (ct1 ct2 text : String) (ev : QualityEvaluation) (s : Store),
        record_usage ct1 text ev s = record_usage ct2 text ev s) ∧
    ((record_usage "top" "A" (scoreEval 8) sCross).prompts.map
        (fun p => (p.clothing_type, p.total_uses, p.avg_quality_score, p.successful_uses)) =
      [("dress", 1, 8, 1)]) :=
  ⟨fun _ _ _ _ _ => rfl, by
    simp [record_usage, sCross, pW4, activeWithText, bumpMetrics, scoreEval]
    norm_num⟩

/-- C5: whenever the underlying judgment call fails or its response cannot be
parsed as the expected JSON structure, evaluate returns the neutral
mid-scale Evaluation — all three scores equal to 5 — with a non-empty issues
list; it never propagates an error (evaluate is a total function). -/
theorem evaluate_neutral_on_failure (o : Except String (Option Json))
    (h : evalFailed o = true) :
    (evaluate o).score = 5 ∧ (evaluate o).clothing_match_score = 5 ∧
      (evaluate o).fit_score = 5 ∧ (evaluate o).issues ≠ [] := by
  cases o with
  | error e => exact ⟨rfl, rfl, rfl, List.cons_ne_nil _ _⟩
  | ok v =>
      cases v with
      | none => exact ⟨rfl, rfl, rfl, List.cons_ne_nil _ _⟩
      | some j =>
          have hx : extractEval j = none := by
            unfold evalFailed at h
            exact Option.isNone_iff_eq_none.mp h
          have hev : evaluate (Except.ok (some j))
              = (match extractEval j with
                 | some ev => ev
                 | none => fallbackEval "field extraction failed") := rfl
          rw [hev, hx]
          exact ⟨rfl, rfl, rfl, List.cons_ne_nil _ _⟩

/-- C5 witness: a response that parses to the JSON value null (not the
expected object shape) yields the neutral evaluation. -/
theorem evaluate_neutral_on_failure_witness :
    evalFailed (Except.ok (some Json.null)) = true ∧
      ((evaluate (Except.ok (some Json.null))).score = 5 ∧
        (evaluate (Except.ok (some Json.null))).clothing_match_score = 5 ∧
        (evaluate (Except.ok (some Json.null))).fit_score = 5 ∧
        (evaluate (Except.ok (some Json.null))).issues ≠ []) :=
  ⟨rfl, evaluate_neutral_on_failure _ rfl⟩

/-- C6 counterexample: optimize does not always return a prompt differing
from its input — when the optimization call succeeds and the model echoes
the previous prompt, the unchanged text is returned. -/
theorem optimize_returns_unchanged_cex :
    (optimize "P" (fallbackEval "") (Except.ok "P")).prompt = "P" := by decide

/-- C6 (amended): when the optimization call fails, optimize returns the
previous prompt with the fixed clarifying clause appended — which always
differs from the input — and it never raises; when the call succeeds it
returns the stripped model text, which may equal the input unchanged. -/
theorem optimize_fallback_appends_and_differs (previous_prompt : String)
    (evaluation : QualityEvaluation) (e t : String) :
    (optimize previous_prompt evaluation (Except.error e)).prompt
        = previous_prompt ++ FALLBACK_CLAUSE ∧
      (optimize previous_prompt evaluation (Except.error e)).prompt ≠ previous_prompt ∧
      (optimize previous_prompt evaluation (Except.ok t)).prompt = pyStrip t := by
  refine ⟨rfl, ?_, rfl⟩
  intro hcontra
  have hcontra2 : previous_prompt ++ FALLBACK_CLAUSE = previous_prompt := hcontra
  have hlen := congrArg String.length hcontra2
  rw [String.length_append] at hlen
  have hpos : 0 < FALLBACK_CLAUSE.length := by decide
  omega

/-- C7: detect_clothing_type always returns a label from the fixed category
set — never an empty or unknown value — and degrades to the default "top"
when the underlying call raises. -/
theorem detect_clothing_type_valid (e t : String) :
    detect_clothing_type (Except.error e) = "top" ∧
      detect_clothing_type (Except.ok "I am not sure") = "top" ∧
      detect_clothing_type (Except.ok t) ∈ VALID_TYPES ∧
      detect_clothing_type (Except.ok t) ≠ "" ∧
      detect_clothing_type (Except.ok t) ≠ "unknown" := by
  have hmem : detect_clothing_type (Except.ok t) ∈ VALID_TYPES := by
    have hred : detect_clothing_type (Except.ok t)
        = (if VALID_TYPES.contains (pyLower (pyStrip t)) = true then pyLower (pyStrip t)
           else
             match VALID_TYPES.find? (fun valid => strContains (pyLower (pyStrip t)) valid) with
             | some valid => valid
             | none => "top") := rfl
    rw [hred]
    by_cases hc : VALID_TYPES.contains (pyLower (pyStrip t)) = true
    · rw [if_pos hc]
      simpa using hc
    · rw [if_neg hc]
      cases hf : VALID_TYPES.find? (fun valid => strContains (pyLower (pyStrip t)) valid) with
      | some v =>
          simp only [hf]
          exact List.mem_of_find?_eq_some hf
      | none =>
          simp only [hf]
          decide
  refine ⟨rfl, by decide, hmem, ?_, ?_⟩
  · intro hcontra
    rw [hcontra] at hmem
    revert hmem
    decide
  · intro hcontra
    rw [hcontra] at hmem
    revert hmem
    decide

/-- C2 (code-bug evidence): process_tryon performs a single generation with
no evaluation loop — on a successful generation the returned result carries
the hard-coded score 10 (never 8), iterations_used 1, exactly one generation
call and zero evaluator or optimizer calls, whatever scores an evaluator
would have produced. -/
theorem process_tryon_single_pass_cex :
    ((process_tryon envC2 "data/photos" 5 emptyStore).1.success = true) ∧
    ((process_tryon envC2 "data/photos" 5 emptyStore).1.final_score = 10) ∧
    ((process_tryon envC2 "data/photos" 5 emptyStore).1.final_score ≠ 8) ∧
    ((process_tryon envC2 "data/photos" 5 emptyStore).1.iterations_used = 1) ∧
    ((process_tryon envC2 "data/photos" 5 emptyStore).2.2.filter isGenEv = [CallEv.genEv]) ∧
    ((process_tryon envC2 "data/photos" 5 emptyStore).2.2.count CallEv.evalEv = 0) ∧
    ((process_tryon envC2 "data/photos" 5 emptyStore).2.2.count CallEv.optimizeEv = 0) := by
  decide

/-- C3 (code-bug evidence): no run of process_tryon ever calls the Prompt
Store's record_usage (or save_improved_prompt), and the prompt store is
returned unchanged — in particular record_usage is not called exactly once
on successful sessions; it is never called. -/
theorem process_tryon_never_records_usage :
    ∀ (env : OrchEnv) (photosDir : String) (tryonId : Nat) (s : Store),
      ((process_tryon env photosDir tryonId s).2.2.filter isRecordUsageEv = []) ∧
      ((process_tryon env photosDir tryonId s).2.2.filter isSavePromptEv = []) ∧
      ((process_tryon env photosDir tryonId s).2.1 = s) := by
  intro env pd idv s
  unfold process_tryon
  dsimp only
  split <;> simp [isRecordUsageEv, isSavePromptEv]

/-- C9: a session whose generation response is blocked (empty parts with a
SAFETY/IMAGE_OTHER finish reason) fails immediately: success = false with the
non-empty blocked error message, no image, the prompt store unchanged, zero
usage-recording or promotion calls, and exactly one generation call (no
retry). -/
theorem blocked_generation_fails_cleanly (env : OrchEnv) (photosDir : String)
    (tryonId : Nat) (s : Store) (r : GenResponse)
    (hg : env.genOut = Except.ok (some r)) (hp : r.parts = [])
    (hb : (r.candidates.find? blockedCandidate).isSome = true) :
    ((process_tryon env photosDir tryonId s).1.success = false) ∧
    ((process_tryon env photosDir tryonId s).1.error = some BLOCKED_MSG) ∧
    (BLOCKED_MSG ≠ "") ∧
    ((process_tryon env photosDir tryonId s).1.image_path = none) ∧
    ((process_tryon env photosDir tryonId s).2.1 = s) ∧
    ((process_tryon env photosDir tryonId s).2.2.filter isRecordUsageEv = []) ∧
    ((process_tryon env photosDir tryonId s).2.2.filter isSavePromptEv = []) ∧
    ((process_tryon env photosDir tryonId s).2.2.filter isGenEv = [CallEv.genEv]) := by
  obtain ⟨c, hc⟩ := Option.isSome_iff_exists.mp hb
  have hgen : generate_with_prompt env.genOut = (none, some BLOCKED_MSG) := by
    rw [hg]
    simp [generate_with_prompt, hp, hc]
  have hne : (BLOCKED_MSG == "") = false := by decide
  unfold process_tryon
  rw [hgen]
  simp [errTruthy, imgTruthy, hne, isRecordUsageEv, isSavePromptEv, isGenEv]
  decide

/-- C9 witness: the concrete blocked response rBlocked satisfies the
hypotheses, and the session fails cleanly with no store writes and a single
generation call. -/
theorem blocked_generation_fails_cleanly_witness :
    (envC9.genOut = Except.ok (some rBlocked)) ∧ (rBlocked.parts = []) ∧
      ((rBlocked.candidates.find? blockedCandidate).isSome = true) ∧
      (((process_tryon envC9 "data/photos" 1 emptyStore).1.success = false) ∧
        ((process_tryon envC9 "data/photos" 1 emptyStore).1.error = some BLOCKED_MSG) ∧
        (BLOCKED_MSG ≠ "") ∧
        ((process_tryon envC9 "data/photos" 1 emptyStore).1.image_path = none) ∧
        ((process_tryon envC9 "data/photos" 1 emptyStore).2.1 = emptyStore) ∧
        ((process_tryon envC9 "data/photos" 1 emptyStore).2.2.filter isRecordUsageEv = []) ∧
        ((process_tryon envC9 "data/photos" 1 emptyStore).2.2.filter isSavePromptEv = []) ∧
        ((process_tryon envC9 "data/photos" 1 emptyStore).2.2.filter isGenEv = [CallEv.genEv])) :=
  ⟨rfl, rfl, by decide,
    blocked_generation_fails_cleanly envC9 "data/photos" 1 emptyStore rBlocked rfl rfl (by decide)⟩

end TryonBot
